import Mathlib

/-!
Verification of the answer-quality control loop of the RAG workflow
implemented in src/rag_workflow.py (class RAGWorkflow) together with the
structured LLM output records of src/chains/ and the state record of
src/state.py.

The Python code builds a LangGraph state machine with four nodes
(Retrieve Documents, Grade Documents, Generate Answer, Search Online) and
two conditional routers (any_doc_irrelevant, check_hallucinations).
We embed it shallowly:

- langchain Document objects become the structure Document (page content
  plus a metadata association list);
- the structured LLM outputs of src/chains/evaluate.py,
  src/chains/document_relevance.py and src/chains/question_relevance.py
  become the structures EvaluateDocs, DocumentRelevance and
  QuestionRelevance;
- the GraphState TypedDict of src/state.py becomes the structure
  GraphState, with Option fields for keys that may be absent
  (LangGraph only materialises a key once some node has returned it;
  reads in the code go through dict access or state.get with a default);
- the external capabilities (retriever, the four LLM chains, the Tavily
  web search client) are opaque in the code, so they are parameters: the
  Oracles structure packages them; fallible ones return Except;
- each node method of RAGWorkflow becomes a function from GraphState to
  GraphState (plus the list of capability-invocation events it performs,
  so that claims of the form "X is never invoked" are statable);
- the compiled graph becomes a small-step function on a Machine record
  (retriever reference, current GraphState, current node) and a fuelled
  run function; LangGraph merge semantics (a node returns a partial
  update which overwrites exactly the returned keys) is mirrored by
  structure-update expressions that leave the other fields unchanged.
-/

namespace RAGSpec

/-- Shallow embedding of a langchain Document: page content plus a
metadata dictionary, embedded as an association list of string pairs.
The code constructs web-search result documents as
Document(page_content=results), which leaves metadata empty. -/
structure Document where
  page_content : String
  metadata : List (String × String) := []
deriving DecidableEq, Repr

/-- Structured output of the evidence-grading chain, from the pydantic
model EvaluateDocs in src/chains/evaluate.py: a score string (the prompt
asks for yes or no), a relevance score in [0,1] with default 1/2, and two
free-text fields with empty defaults. -/
structure EvaluateDocs where
  score : String
  relevance_score : ℚ := 1/2
  coverage_assessment : String := ""
  missing_information : String := ""
deriving DecidableEq, Repr

/-- Structured output of the groundedness-checking chain, from the
pydantic model DocumentRelevance in src/chains/document_relevance.py. -/
structure DocumentRelevance where
  binary_score : Bool
  confidence : ℚ := 1/2
  reasoning : String := ""
deriving DecidableEq, Repr

/-- Structured output of the answer-relevance chain, from the pydantic
model QuestionRelevance in src/chains/question_relevance.py. -/
structure QuestionRelevance where
  binary_score : Bool
  relevance_score : ℚ := 1/2
  completeness : String := "partial"
  reasoning : String := ""
  missing_aspects : String := ""
deriving DecidableEq, Repr

/-- The GraphState TypedDict of src/state.py. Keys that the entry input
does not provide are absent until some node returns them, hence Option;
the code reads online_search through state.get with default False. -/
structure GraphState where
  question : String
  solution : Option String := none
  online_search : Option Bool := none
  documents : Option (List Document) := none
  search_method : Option String := none
  document_evaluations : Option (List EvaluateDocs) := none
  document_relevance_score : Option DocumentRelevance := none
  question_relevance_score : Option QuestionRelevance := none
deriving DecidableEq, Repr

/-- A retriever: retriever.invoke(question) returns a document list or
raises, embedded as Except with the exception message as the error. -/
def Retriever : Type := String → Except String (List Document)

/-- The opaque external capabilities the workflow invokes: the grading
chain evaluate_docs, the generation chain generate_chain, the Tavily
search client (returning the content snippets of its result list, or
raising), and the two checking chains. -/
structure Oracles where
  evaluate_docs : String → String → EvaluateDocs
  generate_chain : List Document → String → String
  tavily_search : String → Except String (List String)
  document_relevance : List Document → String → DocumentRelevance
  question_relevance : String → String → QuestionRelevance

/-- Capability-invocation events, recorded so that properties of the
form "capability X is (never) invoked with input Y" are statable. -/
inductive Event where
  | retrieverCall (question : String)
  | graderCall (question : String) (passage : String)
  | generatorCall (context : List Document) (question : String)
  | webSearchCall (question : String)
  | groundednessCall (context : List Document) (solution : String)
  | relevanceCall (question : String) (solution : String)
deriving DecidableEq, Repr

/-- True exactly on evidence-grader invocation events. -/
def Event.isGraderCall : Event → Bool
  | .graderCall _ _ => true
  | _ => false

/-- True exactly on web-search invocation events. -/
def Event.isWebSearchCall : Event → Bool
  | .webSearchCall _ => true
  | _ => false

/-- True exactly on answer-relevance-checker invocation events. -/
def Event.isRelevanceCall : Event → Bool
  | .relevanceCall _ _ => true
  | _ => false

/-- Kernel-computable embedding of the Python str.lower() call at line
180 of src/rag_workflow.py: lowercases every character (String.toLower
restated through the character list so that concrete runs reduce inside
the kernel). -/
def strLower (s : String) : String := String.mk (s.data.map Char.toLower)

namespace RAGWorkflow

/-- The Retrieve Documents node (RAGWorkflow._retrieve, lines 135-160).
With no retriever it returns empty documents and online_search true;
on success it returns the retrieved documents (leaving online_search
untouched); if the retriever raises, the exception is caught, the
retriever reference is cleared (returned as none) and the node returns
empty documents with online_search true. The first component of the
result is the retriever reference after the call. -/
def retrieve (retr : Option Retriever) (s : GraphState) :
    Option Retriever × GraphState × List Event :=
  match retr with
  | none => (none, { s with documents := some [], online_search := some true }, [])
  | some r =>
    match r s.question with
    | .ok documents =>
        (some r, { s with documents := some documents }, [.retrieverCall s.question])
    | .error _ =>
        (none, { s with documents := some [], online_search := some true },
         [.retrieverCall s.question])

/-- The document loop inside RAGWorkflow._evaluate (lines 175-183):
for each document the grading chain is invoked; its response is appended
to document_evaluations; if response.score.lower() == "yes" the document
is appended to filtered_docs, otherwise online_search is set true. -/
def gradeLoop (o : Oracles) (question : String) :
    List Document → List Document → List EvaluateDocs → Bool →
    List Document × List EvaluateDocs × Bool
  | [], filtered_docs, document_evaluations, online_search =>
      (filtered_docs, document_evaluations, online_search)
  | document :: rest, filtered_docs, document_evaluations, online_search =>
      let response := o.evaluate_docs question document.page_content
      if strLower response.score == "yes" then
        gradeLoop o question rest (filtered_docs ++ [document])
          (document_evaluations ++ [response]) online_search
      else
        gradeLoop o question rest filtered_docs
          (document_evaluations ++ [response]) true

/-- The Grade Documents node (RAGWorkflow._evaluate, lines 162-196):
runs the grading loop over the current documents starting from the
incoming online_search flag (default false), then sets search_method to
"online" if the flag ended true, else "documents". One grader event is
emitted per document, in order. -/
def evaluate (o : Oracles) (s : GraphState) : GraphState × List Event :=
  let question := s.question
  let documents := s.documents.getD []
  let online_search := s.online_search.getD false
  let r := gradeLoop o question documents [] [] online_search
  let search_method := if r.2.2 then "online" else "documents"
  ({ s with documents := some r.1, online_search := some r.2.2,
            search_method := some search_method,
            document_evaluations := some r.2.1 },
   documents.map (fun d => Event.graderCall question d.page_content))

/-- The Generate Answer node (RAGWorkflow._generate_answer, lines
198-207): invokes the generation chain on the current documents and
question and stores the solution; documents and question are returned
unchanged. -/
def generate_answer (o : Oracles) (s : GraphState) : GraphState × List Event :=
  let documents := s.documents.getD []
  let solution := o.generate_chain documents s.question
  ({ s with solution := some solution },
   [Event.generatorCall documents s.question])

/-- The Search Online node (RAGWorkflow._search_online, lines 209-233):
invokes the Tavily client (whose failure is uncaught and propagates,
embedded as Except.error), joins all returned snippet contents with
newlines into one Document with default (empty) metadata, appends it to
the document list when that is not None and otherwise uses it alone, and
sets search_method to "online". -/
def search_online (o : Oracles) (s : GraphState) :
    Except String (GraphState × List Event) :=
  match o.tavily_search s.question with
  | .error e => .error e
  | .ok snippets =>
    let results : Document := { page_content := String.intercalate "\n" snippets }
    let documents :=
      match s.documents with
      | some docs => docs ++ [results]
      | none => [results]
    .ok ({ s with documents := some documents, search_method := some "online" },
         [Event.webSearchCall s.question])

/-- The router after Grade Documents (RAGWorkflow._any_doc_irrelevant,
lines 235-240): routes on state.get("online_search", False). -/
def any_doc_irrelevant (s : GraphState) : String :=
  if s.online_search.getD false then "Search Online" else "Generate Answer"

/-- The router after Generate Answer (RAGWorkflow._check_hallucinations,
lines 242-273): invokes the groundedness chain on (documents, solution);
if its binary_score is false it returns "Hallucinations detected"
without invoking the answer-relevance chain; otherwise it invokes the
answer-relevance chain and returns "Answers Question" or
"Question not addressed" on its binary_score. The Python method also
assigns document_relevance_score and question_relevance_score into the
state dict it received, but it is a conditional-edge router, not a node:
LangGraph passes routers a freshly read snapshot of the channel values
and writes back only the partial updates returned by nodes, so these
in-place assignments are discarded and no channel ever receives them
(the embedding therefore returns only the route string and the events). -/
def check_hallucinations (o : Oracles) (s : GraphState) : String × List Event :=
  let documents := s.documents.getD []
  let solution := s.solution.getD ""
  let doc_relevance_score := o.document_relevance documents solution
  if doc_relevance_score.binary_score then
    let question_relevance_score := o.question_relevance s.question solution
    if question_relevance_score.binary_score then
      ("Answers Question",
       [Event.groundednessCall documents solution,
        Event.relevanceCall s.question solution])
    else
      ("Question not addressed",
       [Event.groundednessCall documents solution,
        Event.relevanceCall s.question solution])
  else
    ("Hallucinations detected", [Event.groundednessCall documents solution])

end RAGWorkflow

/-- The nodes of the compiled graph, END included (RAGWorkflow
._create_graph, lines 100-133). -/
inductive Node where
  | retrieveDocuments
  | gradeDocuments
  | generateAnswer
  | searchOnline
  | END
deriving DecidableEq, Repr

/-- A configuration of the compiled graph: the workflow object's
retriever reference (mutable across the run, cleared on retriever
failure), the current GraphState, and the node about to execute. -/
structure Machine where
  retriever : Option Retriever
  state : GraphState
  node : Node

/-- One superstep of the compiled graph: execute the current node, then
follow its outgoing (possibly conditional) edge exactly as wired in
RAGWorkflow._create_graph: Retrieve Documents always to Grade Documents;
Grade Documents routed by any_doc_irrelevant; Generate Answer routed by
check_hallucinations (back to Generate Answer on "Hallucinations
detected", to END on "Answers Question", to Search Online on "Question
not addressed"); Search Online always to Generate Answer. A raised
exception aborts the run as Except.error. -/
def step (o : Oracles) (m : Machine) : Except String (Machine × List Event) :=
  match m.node with
  | .retrieveDocuments =>
    let r := RAGWorkflow.retrieve m.retriever m.state
    .ok ({ retriever := r.1, state := r.2.1, node := .gradeDocuments }, r.2.2)
  | .gradeDocuments =>
    let r := RAGWorkflow.evaluate o m.state
    let next := if RAGWorkflow.any_doc_irrelevant r.1 == "Search Online" then
        Node.searchOnline
      else Node.generateAnswer
    .ok ({ m with state := r.1, node := next }, r.2)
  | .generateAnswer =>
    let g := RAGWorkflow.generate_answer o m.state
    let c := RAGWorkflow.check_hallucinations o g.1
    let next := if c.1 == "Hallucinations detected" then Node.generateAnswer
      else if c.1 == "Answers Question" then Node.END
      else Node.searchOnline
    .ok ({ m with state := g.1, node := next }, g.2 ++ c.2)
  | .searchOnline =>
    match RAGWorkflow.search_online o m.state with
    | .error e => .error e
    | .ok r => .ok ({ m with state := r.1, node := .generateAnswer }, r.2)
  | .END => .ok (m, [])

/-- Run the graph for at most fuel supersteps, stopping early at END,
collecting the capability-invocation events in order; an exception at
any step aborts the whole run with that error. -/
def run (o : Oracles) : Nat → Machine → Except String (Machine × List Event)
  | 0, m => .ok (m, [])
  | n + 1, m =>
    if m.node = Node.END then .ok (m, [])
    else
      match step o m with
      | .error e => .error e
      | .ok (m2, ev) =>
        match run o n m2 with
        | .error e => .error e
        | .ok (m3, ev2) => .ok (m3, ev ++ ev2)

/-- The initial configuration of graph.invoke(input={"question":
question}) in RAGWorkflow.process_question: only the question key is
present and execution starts at the entry point Retrieve Documents. -/
def initMachine (retr : Option Retriever) (question : String) : Machine :=
  { retriever := retr, state := { question := question },
    node := Node.retrieveDocuments }

/-- RAGWorkflow.process_question: run the graph on the question and
return the final accumulated state (the full snapshot, not just the
answer); a propagated exception surfaces as Except.error. -/
def process_question (o : Oracles) (retr : Option Retriever) (fuel : Nat)
    (question : String) : Except String GraphState :=
  (run o fuel (initMachine retr question)).map (fun r => r.1.state)

/-- Bridge to the vocabulary of the specification: an EvidenceVerdict is
sufficient exactly when the grading response's score string lowercases
to "yes", the keep condition at line 180 of src/rag_workflow.py. -/
def EvaluateDocs.sufficient (e : EvaluateDocs) : Bool :=
  strLower e.score == "yes"

end RAGSpec

namespace RAGSpec

/-! Characterisation of the grading loop and the Grade Documents node. -/

/-- The grading loop of RAGWorkflow._evaluate keeps exactly the
sufficient documents (appended to the incoming accumulator, in order),
records every grading response, and ends with the online flag true iff
it started true or some document was graded insufficient. -/
lemma gradeLoop_spec (o : Oracles) (q : String) (docs : List Document) :
    ∀ (filtered : List Document) (evals : List EvaluateDocs) (online : Bool),
    RAGWorkflow.gradeLoop o q docs filtered evals online =
      (filtered ++ docs.filter (fun d => (o.evaluate_docs q d.page_content).sufficient),
       evals ++ docs.map (fun d => o.evaluate_docs q d.page_content),
       online || docs.any (fun d => !(o.evaluate_docs q d.page_content).sufficient)) := by
  induction docs with
  | nil => intro filtered evals online; simp [RAGWorkflow.gradeLoop]
  | cons d rest ih =>
    intro filtered evals online
    rw [RAGWorkflow.gradeLoop]
    cases h : (strLower (o.evaluate_docs q d.page_content).score == "yes") with
    | true =>
      simp only [if_pos rfl, h, ih, EvaluateDocs.sufficient, List.filter_cons,
        List.map_cons, List.any_cons]
      simp [h, EvaluateDocs.sufficient, List.append_assoc]
    | false =>
      simp only [h, ih, EvaluateDocs.sufficient, List.filter_cons,
        List.map_cons, List.any_cons]
      simp [h, EvaluateDocs.sufficient, List.append_assoc]

/-- Closed form of the Grade Documents node. -/
lemma evaluate_spec (o : Oracles) (s : GraphState) :
    RAGWorkflow.evaluate o s =
      ({ s with
          documents := some ((s.documents.getD []).filter
            (fun d => (o.evaluate_docs s.question d.page_content).sufficient)),
          online_search := some (s.online_search.getD false ||
            (s.documents.getD []).any
              (fun d => !(o.evaluate_docs s.question d.page_content).sufficient)),
          search_method := some (if s.online_search.getD false ||
              (s.documents.getD []).any
                (fun d => !(o.evaluate_docs s.question d.page_content).sufficient)
            then "online" else "documents"),
          document_evaluations := some ((s.documents.getD []).map
            (fun d => o.evaluate_docs s.question d.page_content)) },
       (s.documents.getD []).map (fun d => Event.graderCall s.question d.page_content)) := by
  simp [RAGWorkflow.evaluate, gradeLoop_spec]

/-- C1: in every grading round a passage is kept iff its verdict is
sufficient; if any passage is insufficient the fallback flag ends true
while every sufficient passage is still in the kept set; and after
grading search_method is "online" iff the flag is true, else
"documents". -/
theorem evaluate_keeps_iff_sufficient (o : Oracles) (s : GraphState) :
    (RAGWorkflow.evaluate o s).1.documents
      = some ((s.documents.getD []).filter
          (fun d => (o.evaluate_docs s.question d.page_content).sufficient))
    ∧ ((s.documents.getD []).any
          (fun d => !(o.evaluate_docs s.question d.page_content).sufficient) = true →
        (RAGWorkflow.evaluate o s).1.online_search = some true
        ∧ (s.documents.getD []).all
            (fun d => !(o.evaluate_docs s.question d.page_content).sufficient
              || decide (d ∈ (RAGWorkflow.evaluate o s).1.documents.getD [])) = true)
    ∧ ((RAGWorkflow.evaluate o s).1.search_method = some "online"
        ↔ (RAGWorkflow.evaluate o s).1.online_search = some true)
    ∧ ((RAGWorkflow.evaluate o s).1.search_method = some "online"
        ∨ (RAGWorkflow.evaluate o s).1.search_method = some "documents") := by
  rw [evaluate_spec]
  refine ⟨rfl, ?_, ?_, ?_⟩
  · intro hany
    refine ⟨by simp [hany], ?_⟩
    rw [List.all_eq_true]
    intro d hd
    cases hs : (o.evaluate_docs s.question d.page_content).sufficient with
    | false => simp
    | true => simp [List.mem_filter, hd, hs]
  · cases hb : (s.online_search.getD false ||
        (s.documents.getD []).any
          (fun d => !(o.evaluate_docs s.question d.page_content).sufficient)) with
    | true => simp [hb]
    | false => simp [hb]
  · cases hb : (s.online_search.getD false ||
        (s.documents.getD []).any
          (fun d => !(o.evaluate_docs s.question d.page_content).sufficient)) with
    | true => simp [hb]
    | false => simp [hb]

end RAGSpec

namespace RAGSpec

/-- Concrete grading capabilities for witnesses: one passage scored
"Yes" (mixed case), one scored with the empty string, everything else
"no"; the remaining capabilities are benign. -/
def gradeOracles : Oracles :=
  { evaluate_docs := fun _ p =>
      if p == "kept passage" then { score := "Yes" }
      else if p == "empty score" then { score := "" }
      else { score := "no" },
    generate_chain := fun _ _ => "answer",
    tavily_search := fun _ => .ok ["snippet"],
    document_relevance := fun _ _ => { binary_score := true },
    question_relevance := fun _ _ => { binary_score := true } }

/-- Concrete pre-grading state with one passage graded "Yes" and one
graded by the empty string. -/
def gradeState : GraphState :=
  { question := "q",
    documents := some [{ page_content := "kept passage" },
                       { page_content := "empty score" }] }

/-- C10: a passage is kept exactly when its grading response's score
string lowercases to "yes"; any passage whose score string does not (the
empty or malformed strings included) is excluded from the kept set and
forces the online-search flag to true. -/
theorem evaluate_keep_condition (o : Oracles) (s : GraphState) (d : Document)
    (hd : d ∈ s.documents.getD []) :
    (d ∈ (RAGWorkflow.evaluate o s).1.documents.getD []
      ↔ (strLower (o.evaluate_docs s.question d.page_content).score == "yes") = true)
    ∧ ((strLower (o.evaluate_docs s.question d.page_content).score == "yes") = false →
        (RAGWorkflow.evaluate o s).1.online_search = some true) := by
  rw [evaluate_spec]
  constructor
  · simp [List.mem_filter, hd, EvaluateDocs.sufficient]
  · intro h
    have hany : (s.documents.getD []).any
        (fun d => !(o.evaluate_docs s.question d.page_content).sufficient) = true := by
      rw [List.any_eq_true]
      exact ⟨d, hd, by simp [EvaluateDocs.sufficient, h]⟩
    simp [hany]

/-- Witness for C10 at the concrete passage whose grading score is the
empty string: it is not kept and it forces the fallback flag. -/
theorem evaluate_keep_condition_witness :
    (({ page_content := "empty score" } : Document)
        ∈ (RAGWorkflow.evaluate gradeOracles gradeState).1.documents.getD []
      ↔ (strLower (gradeOracles.evaluate_docs gradeState.question "empty score").score == "yes")
          = true)
    ∧ ((strLower (gradeOracles.evaluate_docs gradeState.question "empty score").score == "yes")
          = false →
        (RAGWorkflow.evaluate gradeOracles gradeState).1.online_search = some true) :=
  evaluate_keep_condition gradeOracles gradeState { page_content := "empty score" } (by decide)

end RAGSpec

namespace RAGSpec

/-- C2: at a Generate Answer step whose groundedness check comes back
unsupported, the controller routes straight back to Generate Answer with
the document list unchanged, the step invokes neither the
answer-relevance checker nor the web search, and the following step
invokes the generator again on exactly the same evidence set. -/
theorem retry_on_hallucination (o : Oracles) (m : Machine)
    (hnode : m.node = Node.generateAnswer)
    (hg : (o.document_relevance (m.state.documents.getD [])
            (o.generate_chain (m.state.documents.getD []) m.state.question)).binary_score
          = false) :
    ((step o m).toOption.map (fun r => r.1.node) = some Node.generateAnswer)
    ∧ ((step o m).toOption.map (fun r => r.1.state.documents) = some m.state.documents)
    ∧ ((step o m).toOption.map
        (fun r => r.2.all (fun e => !e.isRelevanceCall && !e.isWebSearchCall)) = some true)
    ∧ ((step o m).toOption.bind
        (fun r => (step o r.1).toOption.map
          (fun r2 => decide (Event.generatorCall (m.state.documents.getD [])
            m.state.question ∈ r2.2)))
        = some true) := by
  rcases m with ⟨retr, s, node⟩
  subst hnode
  simp only at hg
  have hstep : step o ⟨retr, s, Node.generateAnswer⟩ =
      .ok (⟨retr,
            { s with solution := some (o.generate_chain (s.documents.getD []) s.question) },
            Node.generateAnswer⟩,
           [Event.generatorCall (s.documents.getD []) s.question,
            Event.groundednessCall (s.documents.getD [])
              (o.generate_chain (s.documents.getD []) s.question)]) := by
    simp [step, RAGWorkflow.generate_answer, RAGWorkflow.check_hallucinations, hg]
  have hstep2 : step o ⟨retr,
      { s with solution := some (o.generate_chain (s.documents.getD []) s.question) },
      Node.generateAnswer⟩ =
      .ok (⟨retr,
            { s with solution := some (o.generate_chain (s.documents.getD []) s.question) },
            Node.generateAnswer⟩,
           [Event.generatorCall (s.documents.getD []) s.question,
            Event.groundednessCall (s.documents.getD [])
              (o.generate_chain (s.documents.getD []) s.question)]) := by
    simp [step, RAGWorkflow.generate_answer, RAGWorkflow.check_hallucinations, hg]
  refine ⟨?_, ?_, ?_, ?_⟩
  · rw [hstep]; rfl
  · rw [hstep]; rfl
  · rw [hstep]; rfl
  · rw [hstep]
    simp only [Except.toOption, Option.bind]
    rw [hstep2]
    simp [List.mem_cons]

end RAGSpec

namespace RAGSpec

/-- C3: at a Generate Answer step whose groundedness check passes but
whose answer-relevance check fails, the controller routes to Search
Online (not an immediate regeneration) with the documents unchanged and
no web search performed yet in that step; the following step performs
exactly the web search, appends the single synthetic web passage to the
existing passage list, and routes back to Generate Answer. -/
theorem escalation_on_irrelevance (o : Oracles) (m : Machine) (snippets : List String)
    (hnode : m.node = Node.generateAnswer)
    (hg : (o.document_relevance (m.state.documents.getD [])
            (o.generate_chain (m.state.documents.getD []) m.state.question)).binary_score
          = true)
    (hr : (o.question_relevance m.state.question
            (o.generate_chain (m.state.documents.getD []) m.state.question)).binary_score
          = false)
    (hw : o.tavily_search m.state.question = Except.ok snippets) :
    ((step o m).toOption.map (fun r => r.1.node) = some Node.searchOnline)
    ∧ ((step o m).toOption.map (fun r => r.1.state.documents) = some m.state.documents)
    ∧ ((step o m).toOption.map
        (fun r => r.2.all (fun e => !e.isWebSearchCall)) = some true)
    ∧ ((step o m).toOption.bind
        (fun r => (step o r.1).toOption.map
          (fun r2 => (r2.1.node, r2.1.state.documents,
            r2.2.all (fun e => e.isWebSearchCall))))
        = some (Node.generateAnswer,
            some (m.state.documents.getD []
              ++ [{ page_content := String.intercalate "\n" snippets }]),
            true)) := by
  rcases m with ⟨retr, s, node⟩
  subst hnode
  simp only at hg hr hw
  have hstep : step o ⟨retr, s, Node.generateAnswer⟩ =
      .ok (⟨retr,
            { s with solution := some (o.generate_chain (s.documents.getD []) s.question) },
            Node.searchOnline⟩,
           [Event.generatorCall (s.documents.getD []) s.question,
            Event.groundednessCall (s.documents.getD [])
              (o.generate_chain (s.documents.getD []) s.question),
            Event.relevanceCall s.question
              (o.generate_chain (s.documents.getD []) s.question)]) := by
    simp [step, RAGWorkflow.generate_answer, RAGWorkflow.check_hallucinations, hg, hr]
  have hstep2 : step o ⟨retr,
      { s with solution := some (o.generate_chain (s.documents.getD []) s.question) },
      Node.searchOnline⟩ =
      .ok (⟨retr,
            { s with
                solution := some (o.generate_chain (s.documents.getD []) s.question),
                documents := some (s.documents.getD []
                  ++ [{ page_content := String.intercalate "\n" snippets }]),
                search_method := some "online" },
            Node.generateAnswer⟩,
           [Event.webSearchCall s.question]) := by
    cases hdocs : s.documents with
    | none => simp [step, RAGWorkflow.search_online, hw, hdocs]
    | some docs => simp [step, RAGWorkflow.search_online, hw, hdocs]
  refine ⟨?_, ?_, ?_, ?_⟩
  · rw [hstep]; rfl
  · rw [hstep]; rfl
  · rw [hstep]; rfl
  · rw [hstep]
    simp only [Except.toOption, Option.bind]
    rw [hstep2]
    rfl

end RAGSpec

namespace RAGSpec

/-- Concrete capabilities whose groundedness checker always rejects the
generated answer: the Generator/Groundedness-Checker pair that always
disagrees. -/
def hallucinationOracles : Oracles :=
  { evaluate_docs := fun _ _ => { score := "yes" },
    generate_chain := fun _ _ => "ungrounded answer",
    tavily_search := fun _ => .ok ["web snippet"],
    document_relevance := fun _ _ => { binary_score := false },
    question_relevance := fun _ _ => { binary_score := true } }

/-- Concrete capabilities whose groundedness checker accepts but whose
answer-relevance checker always rejects. -/
def irrelevanceOracles : Oracles :=
  { evaluate_docs := fun _ _ => { score := "yes" },
    generate_chain := fun _ _ => "off topic answer",
    tavily_search := fun _ => .ok ["wa", "wb"],
    document_relevance := fun _ _ => { binary_score := true },
    question_relevance := fun _ _ => { binary_score := false } }

/-- A concrete configuration sitting at the Generate Answer node with
one passage of evidence. -/
def checkMachine : Machine :=
  { retriever := none,
    state := { question := "q", documents := some [{ page_content := "p" }] },
    node := Node.generateAnswer }

/-- Witness for C2 at a concrete machine and capabilities. -/
theorem retry_on_hallucination_witness :
    ((step hallucinationOracles checkMachine).toOption.map (fun r => r.1.node)
      = some Node.generateAnswer)
    ∧ ((step hallucinationOracles checkMachine).toOption.map (fun r => r.1.state.documents)
      = some checkMachine.state.documents)
    ∧ ((step hallucinationOracles checkMachine).toOption.map
        (fun r => r.2.all (fun e => !e.isRelevanceCall && !e.isWebSearchCall)) = some true)
    ∧ ((step hallucinationOracles checkMachine).toOption.bind
        (fun r => (step hallucinationOracles r.1).toOption.map
          (fun r2 => decide (Event.generatorCall (checkMachine.state.documents.getD [])
            checkMachine.state.question ∈ r2.2)))
        = some true) :=
  retry_on_hallucination hallucinationOracles checkMachine rfl rfl

/-- Witness for C3 at a concrete machine and capabilities. -/
theorem escalation_on_irrelevance_witness :
    ((step irrelevanceOracles checkMachine).toOption.map (fun r => r.1.node)
      = some Node.searchOnline)
    ∧ ((step irrelevanceOracles checkMachine).toOption.map (fun r => r.1.state.documents)
      = some checkMachine.state.documents)
    ∧ ((step irrelevanceOracles checkMachine).toOption.map
        (fun r => r.2.all (fun e => !e.isWebSearchCall)) = some true)
    ∧ ((step irrelevanceOracles checkMachine).toOption.bind
        (fun r => (step irrelevanceOracles r.1).toOption.map
          (fun r2 => (r2.1.node, r2.1.state.documents,
            r2.2.all (fun e => e.isWebSearchCall))))
        = some (Node.generateAnswer,
            some (checkMachine.state.documents.getD []
              ++ [{ page_content := String.intercalate "\n" ["wa", "wb"] }]),
            true)) :=
  escalation_on_irrelevance irrelevanceOracles checkMachine ["wa", "wb"] rfl rfl rfl rfl

end RAGSpec

namespace RAGSpec

/-- A retriever that always returns one local passage. -/
def localRetriever : Retriever := fun _ => .ok [{ page_content := "local evidence" }]

/-- Under the always-disagreeing Generator/Groundedness-Checker pair,
one superstep from any non-END node again reaches a non-END node: the
check after Generate Answer always routes back to Generate Answer. -/
lemma step_hallucination_not_END (m : Machine) (h : m.node ≠ Node.END) :
    ∃ m2 ev, step hallucinationOracles m = .ok (m2, ev) ∧ m2.node ≠ Node.END := by
  rcases m with ⟨retr, s, node⟩
  cases node with
  | retrieveDocuments => exact ⟨_, _, rfl, by simp [step]⟩
  | gradeDocuments =>
    refine ⟨_, _, rfl, ?_⟩
    dsimp only [step]
    split <;> simp
  | generateAnswer =>
    have hs : step hallucinationOracles ⟨retr, s, Node.generateAnswer⟩ =
        .ok (⟨retr, { s with solution := some "ungrounded answer" }, Node.generateAnswer⟩,
             [Event.generatorCall (s.documents.getD []) s.question,
              Event.groundednessCall (s.documents.getD []) "ungrounded answer"]) := by
      simp [step, RAGWorkflow.generate_answer, RAGWorkflow.check_hallucinations,
        hallucinationOracles]
    exact ⟨_, _, hs, by simp⟩
  | searchOnline =>
    have hs : step hallucinationOracles ⟨retr, s, Node.searchOnline⟩ =
        .ok (⟨retr,
              { s with
                  documents := some (s.documents.getD []
                    ++ [{ page_content := String.intercalate "\n" ["web snippet"] }]),
                  search_method := some "online" },
              Node.generateAnswer⟩,
             [Event.webSearchCall s.question]) := by
      cases hdocs : s.documents with
      | none => simp [step, RAGWorkflow.search_online, hallucinationOracles, hdocs]
      | some docs => simp [step, RAGWorkflow.search_online, hallucinationOracles, hdocs]
    exact ⟨_, _, hs, by simp⟩
  | END => exact absurd rfl h

/-- Under the always-disagreeing pair, a run of any length from a
non-END configuration succeeds without ever reaching END. -/
lemma run_hallucination_not_END (fuel : Nat) : ∀ m : Machine, m.node ≠ Node.END →
    ∃ m2 ev, run hallucinationOracles fuel m = .ok (m2, ev) ∧ m2.node ≠ Node.END := by
  induction fuel with
  | zero => intro m h; exact ⟨m, [], rfl, h⟩
  | succ n ih =>
    intro m h
    obtain ⟨m2, ev, hstep, h2⟩ := step_hallucination_not_END m h
    obtain ⟨m3, ev2, hrun, h3⟩ := ih m2 h2
    refine ⟨m3, ev ++ ev2, ?_, h3⟩
    rw [run, if_neg h, hstep]
    dsimp only
    rw [hrun]

/-- C4: with a Generator/Groundedness-Checker pair that always
disagrees, the workflow never reaches END no matter how many supersteps
it is allowed: the source imposes no retry cap, produces no
QualityUnresolved result, and regenerates forever (in the deployed
LangGraph runtime the recursion limit eventually raises an exception,
an error rather than a terminal result carrying the best answer). -/
theorem unbounded_hallucination_retry : ∀ fuel : Nat, ∃ m2 ev,
    run hallucinationOracles fuel (initMachine (some localRetriever) "any question")
      = .ok (m2, ev)
    ∧ m2.node ≠ Node.END := fun fuel =>
  run_hallucination_not_END fuel _ (by decide)

end RAGSpec

namespace RAGSpec

/-- Trajectory invariant of a run started with no retriever configured:
before retrieval the retriever reference is none; at the grading node the
document list is already empty with the fallback flag set; from then on
search_method is pinned to "online". -/
def onlineOnlyInv (m : Machine) : Prop :=
  (m.node = Node.retrieveDocuments ∧ m.retriever = none)
  ∨ (m.node = Node.gradeDocuments ∧ m.state.documents = some []
      ∧ m.state.online_search = some true)
  ∨ ((m.node = Node.generateAnswer ∨ m.node = Node.searchOnline ∨ m.node = Node.END)
      ∧ m.state.search_method = some "online")

/-- One superstep preserves the no-retriever invariant and performs no
evidence-grader invocation. -/
lemma onlineOnlyInv_step (o : Oracles) (m m2 : Machine) (ev : List Event)
    (hI : onlineOnlyInv m) (hstep : step o m = .ok (m2, ev)) :
    onlineOnlyInv m2 ∧ ev.all (fun e => !e.isGraderCall) = true := by
  rcases m with ⟨retr, s, node⟩
  simp only [onlineOnlyInv] at hI
  rcases hI with ⟨hn, hr⟩ | ⟨hn, hd, ho⟩ | ⟨hn, hsm⟩
  · subst hn; subst hr
    have hs : step o ⟨none, s, Node.retrieveDocuments⟩ =
        .ok (⟨none, { s with documents := some [], online_search := some true },
              Node.gradeDocuments⟩, []) := by
      simp [step, RAGWorkflow.retrieve]
    rw [hs] at hstep
    injection hstep with hpair
    injection hpair with hm hev
    subst hm; subst hev
    simp [onlineOnlyInv, Event.isGraderCall]
  · subst hn
    have hs : step o ⟨retr, s, Node.gradeDocuments⟩ =
        .ok (⟨retr,
              { s with documents := some [], online_search := some true,
                       search_method := some "online",
                       document_evaluations := some [] },
              Node.searchOnline⟩, []) := by
      simp [step, RAGWorkflow.evaluate, RAGWorkflow.gradeLoop,
        RAGWorkflow.any_doc_irrelevant, hd, ho]
    rw [hs] at hstep
    injection hstep with hpair
    injection hpair with hm hev
    subst hm; subst hev
    simp [onlineOnlyInv, Event.isGraderCall]
  · rcases hn with hn | hn | hn
    · subst hn
      cases hg : (o.document_relevance (s.documents.getD [])
          (o.generate_chain (s.documents.getD []) s.question)).binary_score with
      | false =>
        have hs : step o ⟨retr, s, Node.generateAnswer⟩ =
            .ok (⟨retr,
                  { s with solution := some (o.generate_chain (s.documents.getD []) s.question) },
                  Node.generateAnswer⟩,
                 [Event.generatorCall (s.documents.getD []) s.question,
                  Event.groundednessCall (s.documents.getD [])
                    (o.generate_chain (s.documents.getD []) s.question)]) := by
          simp [step, RAGWorkflow.generate_answer, RAGWorkflow.check_hallucinations, hg]
        rw [hs] at hstep
        injection hstep with hpair
        injection hpair with hm hev
        subst hm; subst hev
        simp [onlineOnlyInv, hsm, Event.isGraderCall]
      | true =>
        cases hq : (o.question_relevance s.question
            (o.generate_chain (s.documents.getD []) s.question)).binary_score with
        | true =>
          have hs : step o ⟨retr, s, Node.generateAnswer⟩ =
              .ok (⟨retr,
                    { s with solution := some (o.generate_chain (s.documents.getD []) s.question) },
                    Node.END⟩,
                   [Event.generatorCall (s.documents.getD []) s.question,
                    Event.groundednessCall (s.documents.getD [])
                      (o.generate_chain (s.documents.getD []) s.question),
                    Event.relevanceCall s.question
                      (o.generate_chain (s.documents.getD []) s.question)]) := by
            simp [step, RAGWorkflow.generate_answer, RAGWorkflow.check_hallucinations, hg, hq]
          rw [hs] at hstep
          injection hstep with hpair
          injection hpair with hm hev
          subst hm; subst hev
          simp [onlineOnlyInv, hsm, Event.isGraderCall]
        | false =>
          have hs : step o ⟨retr, s, Node.generateAnswer⟩ =
              .ok (⟨retr,
                    { s with solution := some (o.generate_chain (s.documents.getD []) s.question) },
                    Node.searchOnline⟩,
                   [Event.generatorCall (s.documents.getD []) s.question,
                    Event.groundednessCall (s.documents.getD [])
                      (o.generate_chain (s.documents.getD []) s.question),
                    Event.relevanceCall s.question
                      (o.generate_chain (s.documents.getD []) s.question)]) := by
            simp [step, RAGWorkflow.generate_answer, RAGWorkflow.check_hallucinations, hg, hq]
          rw [hs] at hstep
          injection hstep with hpair
          injection hpair with hm hev
          subst hm; subst hev
          simp [onlineOnlyInv, hsm, Event.isGraderCall]
    · subst hn
      rcases hw : o.tavily_search s.question with e | snippets
      · have : step o ⟨retr, s, Node.searchOnline⟩ = .error e := by
          simp [step, RAGWorkflow.search_online, hw]
        rw [this] at hstep
        exact absurd hstep (by simp)
      · have hs : step o ⟨retr, s, Node.searchOnline⟩ =
            .ok (⟨retr,
                  { s with
                      documents := some (s.documents.getD []
                        ++ [{ page_content := String.intercalate "\n" snippets }]),
                      search_method := some "online" },
                  Node.generateAnswer⟩,
                 [Event.webSearchCall s.question]) := by
          cases hdocs : s.documents with
          | none => simp [step, RAGWorkflow.search_online, hw, hdocs]
          | some docs => simp [step, RAGWorkflow.search_online, hw, hdocs]
        rw [hs] at hstep
        injection hstep with hpair
        injection hpair with hm hev
        subst hm; subst hev
        simp [onlineOnlyInv, Event.isGraderCall]
    · subst hn
      have hs : step o ⟨retr, s, Node.END⟩ = .ok (⟨retr, s, Node.END⟩, []) := rfl
      rw [hs] at hstep
      injection hstep with hpair
      injection hpair with hm hev
      subst hm; subst hev
      simp [onlineOnlyInv, hsm, Event.isGraderCall]

/-- A run of any length preserves the no-retriever invariant and its
event trail contains no evidence-grader invocation. -/
lemma onlineOnlyInv_run (o : Oracles) (fuel : Nat) : ∀ (m m2 : Machine) (ev : List Event),
    onlineOnlyInv m → run o fuel m = .ok (m2, ev) →
    onlineOnlyInv m2 ∧ ev.all (fun e => !e.isGraderCall) = true := by
  induction fuel with
  | zero =>
    intro m m2 ev hI h
    rw [run] at h
    injection h with hpair
    injection hpair with hm hev
    subst hm; subst hev
    exact ⟨hI, rfl⟩
  | succ n ih =>
    intro m m2 ev hI h
    rw [run] at h
    by_cases hend : m.node = Node.END
    · rw [if_pos hend] at h
      injection h with hpair
      injection hpair with hm hev
      subst hm; subst hev
      exact ⟨hI, rfl⟩
    · rw [if_neg hend] at h
      rcases hs : step o m with e | ⟨ma, eva⟩
      · rw [hs] at h; exact absurd h (by simp)
      · rw [hs] at h
        dsimp only at h
        rcases hr : run o n ma with e | ⟨mb, evb⟩
        · rw [hr] at h; exact absurd h (by simp)
        · rw [hr] at h
          dsimp only at h
          injection h with hpair
          injection hpair with hm hev
          subst hm; subst hev
          obtain ⟨hI1, hev1⟩ := onlineOnlyInv_step o m ma eva hI hs
          obtain ⟨hI2, hev2⟩ := ih ma mb evb hI1 hr
          exact ⟨hI2, by simp [List.all_append, hev1, hev2]⟩

/-- C5: a run started with no retriever configured never invokes the
evidence grader on any passage, and if it completes (reaches END) its
search_method is "online". -/
theorem no_retriever_goes_online (o : Oracles) (question : String) (fuel : Nat)
    (m : Machine) (ev : List Event)
    (h : run o fuel (initMachine none question) = .ok (m, ev)) :
    ev.all (fun e => !e.isGraderCall) = true
    ∧ (m.node = Node.END → m.state.search_method = some "online") := by
  have hI : onlineOnlyInv (initMachine none question) := Or.inl ⟨rfl, rfl⟩
  obtain ⟨hI2, hev⟩ := onlineOnlyInv_run o fuel _ m ev hI h
  refine ⟨hev, fun hEnd => ?_⟩
  rcases hI2 with ⟨hn, _⟩ | ⟨hn, _, _⟩ | ⟨_, hsm⟩
  · rw [hEnd] at hn; exact absurd hn (by decide)
  · rw [hEnd] at hn; exact absurd hn (by decide)
  · exact hsm

end RAGSpec

namespace RAGSpec

/-- Final configuration of a complete run of gradeOracles with no
retriever configured on question "q0". -/
def finalOnlineMachine : Machine :=
  { retriever := none,
    state := { question := "q0",
               solution := some "answer",
               online_search := some true,
               documents := some [{ page_content := "snippet" }],
               search_method := some "online",
               document_evaluations := some [] },
    node := Node.END }

/-- Event trail of that run: web search, generation, and the two
checks; no retriever call and no grader call. -/
def finalOnlineEvents : List Event :=
  [Event.webSearchCall "q0",
   Event.generatorCall [{ page_content := "snippet" }] "q0",
   Event.groundednessCall [{ page_content := "snippet" }] "answer",
   Event.relevanceCall "q0" "answer"]

/-- Witness for C5 on a concrete complete run without a retriever. -/
theorem no_retriever_goes_online_witness :
    (finalOnlineEvents.all (fun e => !e.isGraderCall) = true)
    ∧ (finalOnlineMachine.node = Node.END →
        finalOnlineMachine.state.search_method = some "online") :=
  no_retriever_goes_online gradeOracles "q0" 10 finalOnlineMachine finalOnlineEvents (by rfl)

/-- C6: when the retriever raises during lookup, the Retrieve Documents
node discards the retriever reference (so any later retrieval — here an
arbitrary later state s2 — also returns empty passages with the
web-search signal), the current run continues with empty passages and
online_search true, and the failure is absorbed: the step still
succeeds rather than surfacing an error. -/
theorem retriever_failure_degrades (o : Oracles) (r : Retriever)
    (s s2 : GraphState) (e : String)
    (h : r s.question = Except.error e) :
    (RAGWorkflow.retrieve (some r) s).1 = none
    ∧ (RAGWorkflow.retrieve (some r) s).2.1.documents = some []
    ∧ (RAGWorkflow.retrieve (some r) s).2.1.online_search = some true
    ∧ (RAGWorkflow.retrieve ((RAGWorkflow.retrieve (some r) s).1) s2).2.1.documents = some []
    ∧ (RAGWorkflow.retrieve ((RAGWorkflow.retrieve (some r) s).1) s2).2.1.online_search
        = some true
    ∧ (step o { retriever := some r, state := s, node := Node.retrieveDocuments }).toOption.isSome
        = true := by
  have hr : RAGWorkflow.retrieve (some r) s =
      (none, { s with documents := some [], online_search := some true },
       [Event.retrieverCall s.question]) := by
    simp [RAGWorkflow.retrieve, h]
  refine ⟨by rw [hr], by rw [hr], by rw [hr], ?_, ?_, ?_⟩
  · rw [hr]; rfl
  · rw [hr]; rfl
  · rfl

/-- A retriever that always raises. -/
def failingRetriever : Retriever := fun _ => .error "connection refused"

/-- The state of a first run whose retriever lookup fails. -/
def q1State : GraphState := { question := "q1" }

/-- The state of a later run in the same process. -/
def q2State : GraphState := { question := "q2" }

/-- A configuration whose retriever lookup is about to fail. -/
def failingRetrieveMachine : Machine :=
  { retriever := some failingRetriever, state := q1State, node := Node.retrieveDocuments }

/-- Witness for C6 at a concrete failing retriever. -/
theorem retriever_failure_degrades_witness :
    (RAGWorkflow.retrieve (some failingRetriever) q1State).1 = none
    ∧ (RAGWorkflow.retrieve (some failingRetriever) q1State).2.1.documents = some []
    ∧ (RAGWorkflow.retrieve (some failingRetriever) q1State).2.1.online_search = some true
    ∧ (RAGWorkflow.retrieve ((RAGWorkflow.retrieve (some failingRetriever)
        q1State).1) q2State).2.1.documents = some []
    ∧ (RAGWorkflow.retrieve ((RAGWorkflow.retrieve (some failingRetriever)
        q1State).1) q2State).2.1.online_search = some true
    ∧ (step gradeOracles failingRetrieveMachine).toOption.isSome = true :=
  retriever_failure_degrades gradeOracles failingRetriever
    q1State q2State "connection refused" rfl

/-- C7: a web-search failure at the Search Online node is fatal: the
step and therefore the remaining run surface exactly that error, so the
run terminates with an explicit error and no state is returned. -/
theorem web_search_failure_fatal (o : Oracles) (m : Machine) (e : String) (fuel : Nat)
    (hnode : m.node = Node.searchOnline)
    (hw : o.tavily_search m.state.question = Except.error e) :
    step o m = Except.error e ∧ run o (fuel + 1) m = Except.error e := by
  rcases m with ⟨retr, s, node⟩
  subst hnode
  simp only at hw
  have hs : step o ⟨retr, s, Node.searchOnline⟩ = Except.error e := by
    simp [step, RAGWorkflow.search_online, hw]
  refine ⟨hs, ?_⟩
  have hne : ({ retriever := retr, state := s, node := Node.searchOnline } : Machine).node
      ≠ Node.END := by simp
  rw [run, if_neg hne, hs]

/-- Capabilities whose web search always fails. -/
def brokenWebOracles : Oracles :=
  { gradeOracles with tavily_search := fun _ => .error "tavily down" }

/-- A concrete configuration sitting at the Search Online node. -/
def searchMachine : Machine :=
  { retriever := none,
    state := { question := "q3", documents := some [] },
    node := Node.searchOnline }

/-- Witness for C7 at a concrete broken web search. -/
theorem web_search_failure_fatal_witness :
    step brokenWebOracles searchMachine = Except.error "tavily down"
    ∧ run brokenWebOracles (4 + 1) searchMachine = Except.error "tavily down" :=
  web_search_failure_fatal brokenWebOracles searchMachine "tavily down" 4 rfl rfl

end RAGSpec

namespace RAGSpec

/-- A state holding one local passage with provenance metadata, about
to go through Search Online. -/
def webState : GraphState :=
  { question := "qw",
    documents := some [{ page_content := "local", metadata := [("source", "file.pdf")] }] }

/-- Counterexample to C8 as stated: the web search does append exactly
one synthetic passage built from the joined snippets, but that passage
carries no origin="web" tag — its metadata is empty, because the code
constructs Document(page_content=results) with no metadata at all. -/
theorem web_passage_not_tagged :
    ((RAGWorkflow.search_online gradeOracles webState).toOption.map (fun r => r.1.documents)
      = some (some [{ page_content := "local", metadata := [("source", "file.pdf")] },
                    { page_content := "snippet" }]))
    ∧ ((RAGWorkflow.search_online gradeOracles webState).toOption.map
        (fun r => (r.1.documents.getD []).getLast?.map
          (fun d => decide (("origin", "web") ∈ d.metadata)))
      = some (some false)) :=
  ⟨rfl, rfl⟩

/-- C8 amended: every successful web search joins all returned snippets
with newlines into exactly one synthetic passage with empty metadata (no
origin tag), appended after the existing passages, which are unchanged
and in order; when the list was empty the synthetic passage is the sole
passage. -/
theorem web_search_appends_one_passage (o : Oracles) (s : GraphState)
    (snippets : List String)
    (hw : o.tavily_search s.question = Except.ok snippets) :
    (RAGWorkflow.search_online o s).toOption.map (fun r => r.1.documents)
      = some (some (s.documents.getD []
          ++ [{ page_content := String.intercalate "\n" snippets, metadata := [] }])) := by
  cases hdocs : s.documents with
  | none =>
    simp only [RAGWorkflow.search_online, hw, hdocs, Option.getD_none]
    exact rfl
  | some docs =>
    simp only [RAGWorkflow.search_online, hw, hdocs, Option.getD_some]
    exact rfl

/-- Witness for the amended C8 at a concrete state and snippet list. -/
theorem web_search_appends_one_passage_witness :
    (RAGWorkflow.search_online gradeOracles webState).toOption.map (fun r => r.1.documents)
      = some (some (webState.documents.getD []
          ++ [{ page_content := String.intercalate "\n" ["snippet"], metadata := [] }])) :=
  web_search_appends_one_passage gradeOracles webState ["snippet"] rfl

/-- A retriever returning one passage the grader will score "Yes". -/
def keptRetriever : Retriever := fun _ => .ok [{ page_content := "kept passage" }]

/-- C9 is violated by the code: on a complete successful run (retrieval
succeeds, the passage is graded sufficient, the answer is grounded and
relevant, END is reached) the returned snapshot does carry the answer
and the search method, and the groundedness and relevance checkers were
both invoked during the run — yet the returned state's
document_relevance_score and question_relevance_score are still absent,
because RAGWorkflow._check_hallucinations assigns them into the state
snapshot of a conditional-edge router, which LangGraph discards (only
partial updates returned by nodes are written back), despite the code's
own comment "Store the evaluation scores in state" and the fields being
declared in src/state.py. -/
theorem verdicts_missing_from_result :
    (run gradeOracles 10 (initMachine (some keptRetriever) "q9")).toOption.map
      (fun r => (r.1.node, r.1.state.solution, r.1.state.search_method,
        r.1.state.document_relevance_score, r.1.state.question_relevance_score,
        decide (Event.groundednessCall [{ page_content := "kept passage" }] "answer" ∈ r.2),
        decide (Event.relevanceCall "q9" "answer" ∈ r.2)))
      = some (Node.END, some "answer", some "documents", none, none, true, true) :=
  rfl

end RAGSpec

namespace RAGSpec

/-- Witness for C1 at the concrete grading capabilities and state with
one sufficient and one insufficient passage. -/
theorem evaluate_keeps_iff_sufficient_witness :
    ((RAGWorkflow.evaluate gradeOracles gradeState).1.documents
      = some ((gradeState.documents.getD []).filter
          (fun d => (gradeOracles.evaluate_docs gradeState.question d.page_content).sufficient)))
    ∧ (((gradeState.documents.getD []).any
          (fun d => !(gradeOracles.evaluate_docs gradeState.question d.page_content).sufficient)
            = true →
        (RAGWorkflow.evaluate gradeOracles gradeState).1.online_search = some true
        ∧ (gradeState.documents.getD []).all
            (fun d => !(gradeOracles.evaluate_docs gradeState.question d.page_content).sufficient
              || decide (d ∈ (RAGWorkflow.evaluate gradeOracles
                    gradeState).1.documents.getD [])) = true))
    ∧ ((RAGWorkflow.evaluate gradeOracles gradeState).1.search_method = some "online"
        ↔ (RAGWorkflow.evaluate gradeOracles gradeState).1.online_search = some true)
    ∧ ((RAGWorkflow.evaluate gradeOracles gradeState).1.search_method = some "online"
        ∨ (RAGWorkflow.evaluate gradeOracles gradeState).1.search_method = some "documents") :=
  evaluate_keeps_iff_sufficient gradeOracles gradeState

end RAGSpec
